import Mathlib

/-!
# Verification of the fanx-service-clients resilience layer

This file embeds the retry / reconnect / error-classification behaviour of the
service-client wrappers (object store, queue, SQL, search) as executable Lean
definitions and proves or refutes the specified properties about them.

Backend behaviour is supplied as an oracle ("script"): a function from the
attempt index to the outcome the backend produces on that attempt.  Each model
follows the control flow of the corresponding Python method statement by
statement; raised exceptions are explicit result constructors.
-/

/- ## SQL facade (serviceclients/database/mysqlclient_db.py,
      serviceclients/database/pymysql_db.py)

The two DBClient flavours share one structure.  An attempt of
`execute_write_query` can end in one of five ways, mirroring the except
clauses of the source:
 * the cursor executes and reports a row count (`success`),
 * a ProgrammingError/InterfaceError whose text matches one of the lock /
   timeout / connect substrings (`lockDbError`, retried after
   `db_lock_action` and a sleep),
 * a ProgrammingError/InterfaceError with any other text (`otherDbError`,
   not retried, returns False),
 * an OperationalError (`operationalError`, connection lane reset, retried),
 * any other exception (`otherError`, not retried, returns False).
-/

inductive WriteOutcome where
  | success (rowcount : Nat)
  | lockDbError
  | otherDbError
  | operationalError
  | otherError
deriving DecidableEq

inductive WriteRet where
  | boolRet (b : Bool)
  | countRet (n : Nat)
deriving DecidableEq

inductive WriteResult where
  | ok (r : WriteRet)
  | raisedExceeded
deriving DecidableEq

/-- `DBClient.execute_write_query` of mysqlclient_db.py.  `B` is
`WRITE_RETRY_ATTEMPTS`; the guard is `retries > B`.  On success the Python
function returns the row count when it is positive and `True` otherwise. -/
def executeWriteQueryM (B : Nat) (script : Nat → WriteOutcome) (retries : Nat) :
    WriteResult :=
  if B < retries then .raisedExceeded
  else
    match script retries with
    | .success n => if 0 < n then .ok (.countRet n) else .ok (.boolRet true)
    | .lockDbError => executeWriteQueryM B script (retries + 1)
    | .otherDbError => .ok (.boolRet false)
    | .operationalError => executeWriteQueryM B script (retries + 1)
    | .otherError => .ok (.boolRet false)
termination_by B + 1 - retries
decreasing_by all_goals omega

/-- `DBClient.execute_write_query` of pymysql_db.py.  The result behaviour is
the same as the mysqlclient flavour; the pymysql version additionally closes
the write connection and runs `db_error_action` on the non-retried branches,
and its terminal raise is `DBConnExceeded` rather than a bare `Exception`. -/
def executeWriteQueryP (B : Nat) (script : Nat → WriteOutcome) (retries : Nat) :
    WriteResult :=
  if B < retries then .raisedExceeded
  else
    match script retries with
    | .success n => if 0 < n then .ok (.countRet n) else .ok (.boolRet true)
    | .lockDbError => executeWriteQueryP B script (retries + 1)
    | .otherDbError => .ok (.boolRet false)
    | .operationalError => executeWriteQueryP B script (retries + 1)
    | .otherError => .ok (.boolRet false)
termination_by B + 1 - retries
decreasing_by all_goals omega

/-- `DBClient.execute_write_query` of mysqlclient_db.py again, additionally
counting how many times the backend `cursor.execute` is attempted (the second
component). -/
def executeWriteQueryCountM (B : Nat) (script : Nat → WriteOutcome)
    (retries : Nat) : WriteResult × Nat :=
  if B < retries then (.raisedExceeded, 0)
  else
    match script retries with
    | .success n =>
        (if 0 < n then (.ok (.countRet n), 1) else (.ok (.boolRet true), 1))
    | .lockDbError =>
        let r := executeWriteQueryCountM B script (retries + 1)
        (r.1, r.2 + 1)
    | .otherDbError => (.ok (.boolRet false), 1)
    | .operationalError =>
        let r := executeWriteQueryCountM B script (retries + 1)
        (r.1, r.2 + 1)
    | .otherError => (.ok (.boolRet false), 1)
termination_by B + 1 - retries
decreasing_by all_goals omega

/- Read side.  `execute_read_query` catches OperationalError (stale
connection: reset lane and retry) and, as a catch-all, any other exception.
On the catch-all the mysqlclient flavour leaves `result = None`, the pymysql
flavour sets `result = False`. -/

abbrev Row := Nat

inductive ReadOutcome where
  | success (rows : List Row)
  | operationalError
  | otherError
deriving DecidableEq

inductive ReadRet where
  | rowsRet (l : List Row)
  | noneRet
  | falseRet
deriving DecidableEq

inductive ReadResult where
  | ok (r : ReadRet)
  | raisedExceeded
deriving DecidableEq

/-- `DBClient.execute_read_query` of mysqlclient_db.py: the catch-all branch
returns the untouched initial `result = None`. -/
def executeReadQueryM (B : Nat) (script : Nat → ReadOutcome) (retries : Nat) :
    ReadResult :=
  if B < retries then .raisedExceeded
  else
    match script retries with
    | .success l => .ok (.rowsRet l)
    | .operationalError => executeReadQueryM B script (retries + 1)
    | .otherError => .ok .noneRet
termination_by B + 1 - retries
decreasing_by all_goals omega

/-- `DBClient.execute_read_query` of pymysql_db.py: the catch-all branch sets
`result = False` (after closing the read connection). -/
def executeReadQueryP (B : Nat) (script : Nat → ReadOutcome) (retries : Nat) :
    ReadResult :=
  if B < retries then .raisedExceeded
  else
    match script retries with
    | .success l => .ok (.rowsRet l)
    | .operationalError => executeReadQueryP B script (retries + 1)
    | .otherError => .ok .falseRet
termination_by B + 1 - retries
decreasing_by all_goals omega

/- ## Object-store facade (serviceclients/aws/s3.py)

`S3Client.connect` increments `self.connection_attempt` as its first statement
(inside the `try`), attempts to build the connection and fetch the bucket, and
on failure re-raises only once the counter has reached `CONN_RETRIES`; the
counter is never reset.  `connectOk` is indexed by the counter value before
the call, which for this client counts every `connect` invocation. -/

/-- One call of `S3Client.connect` given the current `connection_attempt`
value `ca`.  Returns the new counter value and whether the call raised. -/
def s3ConnectStep (ok : Bool) (connRetries ca : Nat) : Nat × Bool :=
  if ok then (ca + 1, false) else (ca + 1, decide (connRetries ≤ ca + 1))

inductive S3ReadRes where
  | okContents
  | connectRaised
  | outOfFuel
deriving DecidableEq

/-- `S3Client.read`: attempt `get_contents_as_string`; on any exception sleep,
call `connect()` and recurse with no bound of its own.  `readOk i` tells
whether attempt `i` of the backend read succeeds, `connectOk` is indexed by
the connection-attempt counter.  The Python recursion is unbounded, so the
model carries `fuel`; the second component counts backend read attempts. -/
def s3Read (readOk : Nat → Bool) (connectOk : Nat → Bool) (connRetries : Nat) :
    Nat → Nat → Nat → S3ReadRes × Nat
  | 0, _, _ => (.outOfFuel, 0)
  | fuel + 1, i, ca =>
      if readOk i then (.okContents, 1)
      else
        let step := s3ConnectStep (connectOk ca) connRetries ca
        if step.2 then (.connectRaised, 1)
        else
          let r := s3Read readOk connectOk connRetries fuel (i + 1) step.1
          (r.1, r.2 + 1)

/-- The value `S3Client.write` returns: the `output` dict (file name plus the
`is_new` flag computed before the upload), or None. -/
structure S3WriteOut where
  file_name : String
  is_new : Bool
deriving DecidableEq

/-- Outcome of the single backend interaction inside `S3Client.write`:
both `k.exists()` and `k.set_contents_from_string` return (`completed`,
with the truthiness of the response), `k.exists()` raises before `output`
is assigned (`existsRaised`), or `set_contents_from_string` raises after
`output` was assigned (`setContentsRaised`). -/
inductive S3WriteOutcome where
  | completed (isNew : Bool) (respOk : Bool)
  | existsRaised
  | setContentsRaised (isNew : Bool)
deriving DecidableEq

/-- `S3Client.write`: `output = None`; build the key, assign
`output = {file_name, is_new}`, upload; every exception is caught and only
logged; always returns `output`. -/
def s3Write (o : S3WriteOutcome) (key : String) : Option S3WriteOut :=
  match o with
  | .completed isNew _ => some ⟨key, isNew⟩
  | .existsRaised => none
  | .setContentsRaised isNew => some ⟨key, isNew⟩

/-- Outcome of one attempt inside `S3Client.download`: both `get_key` and
`get_contents_to_filename` succeed (`completed`), `get_key` returns None for
a missing key (`keyMissing` — the subsequent attribute access raises),
`get_key` itself raises leaving `key_obj = None` (`getKeyRaised`), or the
content download raises after the key was found (`contentsRaised`). -/
inductive S3DownOutcome where
  | completed
  | keyMissing
  | getKeyRaised
  | contentsRaised
deriving DecidableEq

inductive S3DownRes where
  | okTrue
  | raised
  | outOfFuel
deriving DecidableEq

/-- `S3Client.download`: on an exception with `key_obj` still None (missing
key or `get_key` failure) the error is re-raised; otherwise sleep, `connect()`
and recurse unboundedly. -/
def s3Download (script : Nat → S3DownOutcome) (connectOk : Nat → Bool)
    (connRetries : Nat) : Nat → Nat → Nat → S3DownRes
  | 0, _, _ => .outOfFuel
  | fuel + 1, i, ca =>
      match script i with
      | .completed => .okTrue
      | .keyMissing => .raised
      | .getKeyRaised => .raised
      | .contentsRaised =>
          let step := s3ConnectStep (connectOk ca) connRetries ca
          if step.2 then .raised
          else s3Download script connectOk connRetries fuel (i + 1) step.1

/- ## Queue facade (serviceclients/aws/sqs.py)

`SQSClient.connect` resets `self.connection_attempt` to 0 after successfully
obtaining the queue, increments it on failure and re-raises once it reaches
`CONN_RETRIES`.  `connectOk` is indexed by a plain call counter `cc`, because
this client's attempt counter resets on success. -/

/-- One call of `SQSClient.connect` given the current `connection_attempt`
value `ca`.  Returns the new counter value and whether the call raised. -/
def sqsConnect (ok : Bool) (connRetries ca : Nat) : Nat × Bool :=
  if ok then (0, false) else (ca + 1, decide (connRetries ≤ ca + 1))

/-- The keyword arguments of one `queue.get_messages` call. -/
structure RecvParams where
  num_messages : Nat
  visibility_timeout : Nat
  wait_time_seconds : Nat
deriving DecidableEq

/-- The defaults of `SQSClient.get_messages`: `num_messages=1`,
`visibility_timeout=SQS_MSG_INVISIBLE_SECONDS` (class value 14),
`wait_time_seconds=SQS_LONG_POLL_SECONDS` (class value 20); default values
are bound to the class attributes at method definition time. -/
def sqsRecvDefaults : RecvParams := ⟨1, 14, 20⟩

inductive SQSRecvRes where
  | okMessages
  | raised
  | outOfFuel
deriving DecidableEq

/-- `SQSClient.get_messages`: call the backend receive with the current
parameters; on any exception sleep, `connect()` (which may itself raise),
re-raise if `connection_attempt >= CONN_RETRIES`, else recurse **with the
default parameters**.  Returns the result, the number of backend receive
calls, and the parameters each receive call was invoked with. -/
def sqsGetMessages (recvOk : Nat → Bool) (connectOk : Nat → Bool)
    (connRetries : Nat) :
    Nat → Nat → Nat → Nat → RecvParams → SQSRecvRes × Nat × List RecvParams
  | 0, _, _, _, _ => (.outOfFuel, 0, [])
  | fuel + 1, i, ca, cc, p =>
      if recvOk i then (.okMessages, 1, [p])
      else
        let step := sqsConnect (connectOk cc) connRetries ca
        if step.2 then (.raised, 1, [p])
        else if connRetries ≤ step.1 then (.raised, 1, [p])
        else
          let r := sqsGetMessages recvOk connectOk connRetries fuel (i + 1)
            step.1 (cc + 1) sqsRecvDefaults
          (r.1, r.2.1 + 1, p :: r.2.2)

/-- Outcome of one backend `queue.delete_message` call: success,
AttributeError (message already deleted), or any other exception. -/
inductive SQSDelOutcome where
  | deleted
  | attrError
  | otherError
deriving DecidableEq

inductive SQSDelRes where
  | okTrue
  | raised
  | outOfFuel
deriving DecidableEq

/-- `SQSClient.delete_message`: AttributeError is swallowed (already
deleted); on any other exception sleep, `connect()`, re-raise if
`connection_attempt >= CONN_RETRIES`, else recurse; returns True in every
non-raising path.  The second component counts backend delete calls. -/
def sqsDeleteMessage (script : Nat → SQSDelOutcome) (connectOk : Nat → Bool)
    (connRetries : Nat) : Nat → Nat → Nat → Nat → SQSDelRes × Nat
  | 0, _, _, _ => (.outOfFuel, 0)
  | fuel + 1, i, ca, cc =>
      match script i with
      | .deleted => (.okTrue, 1)
      | .attrError => (.okTrue, 1)
      | .otherError =>
          let step := sqsConnect (connectOk cc) connRetries ca
          if step.2 then (.raised, 1)
          else if connRetries ≤ step.1 then (.raised, 1)
          else
            let r := sqsDeleteMessage script connectOk connRetries fuel
              (i + 1) step.1 (cc + 1)
            (r.1, r.2 + 1)

inductive ParseRes where
  | okBody
  | raisedParseError
  | raisedDeleteError
  | outOfFuel
deriving DecidableEq

/-- `SQSClient.parse_message`: `json.loads` the body; on failure call
`self.delete_message(message)` and re-raise the parsing error (if the delete
itself raises, that error propagates instead).  The second component counts
backend delete calls issued for the message. -/
def parseMessage (parseOk : Bool) (dscript : Nat → SQSDelOutcome)
    (connectOk : Nat → Bool) (connRetries fuel ca : Nat) : ParseRes × Nat :=
  if parseOk then (.okBody, 0)
  else
    let r := sqsDeleteMessage dscript connectOk connRetries fuel 0 ca 0
    match r.1 with
    | .okTrue => (.raisedParseError, r.2)
    | .raised => (.raisedDeleteError, r.2)
    | .outOfFuel => (.outOfFuel, r.2)

/- ## Search facade (serviceclients/search/es.py) -/

/-- Outcome of one `indices.delete` call inside `ESClient.delete_index`. -/
inductive ESDelOutcome where
  | acked
  | notFound
  | connError
deriving DecidableEq

/-- Value `ESClient.delete_index` returns: the acknowledgement dict, `False`
(NotFoundError), or the initial `result = None` when every loop iteration hit
a connection error. -/
inductive ESDelResult where
  | okDict
  | falseRet
  | noneRet
deriving DecidableEq

/-- Loop body of `ESClient.delete_index`: `remaining` iterations of
`for attempt in range(1, RETRY_ATTEMPTS + 1)` are left, `a` counts the
iterations already performed (indexing the outcome script). -/
def esDeleteIndexGo (script : Nat → ESDelOutcome) : Nat → Nat → ESDelResult
  | 0, _ => .noneRet
  | remaining + 1, a =>
      match script a with
      | .acked => .okDict
      | .notFound => .falseRet
      | .connError => esDeleteIndexGo script remaining (a + 1)

/-- `ESClient.delete_index`: `result = None`, then up to `RETRY_ATTEMPTS`
attempts; success breaks with the dict, NotFoundError breaks with `False`,
connection errors reconnect and continue; returns `result`. -/
def esDeleteIndex (script : Nat → ESDelOutcome) (retryAttempts : Nat) :
    ESDelResult :=
  esDeleteIndexGo script retryAttempts 0

/-- Outcome of one `indices.get_alias` call inside `ESClient.get_alias`. -/
inductive ESAliasOutcome where
  | found
  | notFound
  | connError
deriving DecidableEq

inductive ESAliasResult where
  | okDict
  | noneRet
  | raised
deriving DecidableEq

/-- `ESClient.get_alias`: NotFoundError yields `alias = None`; connection
errors re-raise once `retries > RETRY_ATTEMPTS`, else sleep and recurse with
`retries + 1`. -/
def esGetAlias (script : Nat → ESAliasOutcome) (B retries : Nat) :
    ESAliasResult :=
  match script retries with
  | .found => .okDict
  | .notFound => .noneRet
  | .connError =>
      if B < retries then .raised
      else esGetAlias script B (retries + 1)
termination_by B + 1 - retries
decreasing_by all_goals omega

/- `ESClient.msearch`.  Queries are opaque; `hits q` is the hit list the
backend holds for query `q` (each query's response contributes
`r['hits']['hits']`, modelled as a list of document ids).  The outcome of the
physical msearch request for chunk index `ci` at recursion level `retries` is
`script retries ci`. -/

abbrev ESQuery := Nat

/-- The generator `chunk_queries` of `ESClient.msearch`:
`queries[i:i+chunk_size]` for `i in range(0, len(queries), chunk_size)`.
For `chunk_size = 0` the Python `range` raises ValueError; the model returns
`[]` there and is only ever used with a positive chunk size. -/
def chunkQueries (size : Nat) : List ESQuery → List (List ESQuery)
  | [] => []
  | q :: qs =>
      if size = 0 then []
      else (q :: qs).take size :: chunkQueries size ((q :: qs).drop size)
termination_by l => l.length
decreasing_by simp [List.length_drop]; omega

/-- Outcome of one physical msearch request: a well-formed response
(`responses` with a `hits` entry per query), a connection-level error
(ConnectionTimeout / ConnectionError / TransportError), or a KeyError
(missing `hits`, e.g. es_rejected_execution_exception). -/
inductive MsOutcome where
  | okResp
  | connError
  | keyError
deriving DecidableEq

inductive MsearchResult where
  | ok (found : List (List Nat))
  | raised
deriving DecidableEq

/-- The `for query_chunk in chunked_queries` loop of `ESClient.msearch`.
On a well-formed response the chunk's hit lists are appended to `found`.
On a connection error: re-raise when `retries > RETRY_ATTEMPTS`, else sleep,
reconnect and call `self.msearch(...)` recursively (`recurse`), after which
`found` is **replaced** by the recursive result and the loop continues with
the remaining chunks.  A KeyError always re-raises (after the bound check). -/
def msearchLoop (B retries : Nat) (hits : ESQuery → List Nat)
    (script : Nat → Nat → MsOutcome) (recurse : Unit → MsearchResult) :
    List (List ESQuery) → Nat → List (List Nat) → MsearchResult
  | [], _, found => .ok found
  | c :: cs, ci, found =>
      match script retries ci with
      | .okResp =>
          msearchLoop B retries hits script recurse cs (ci + 1)
            (found ++ c.map hits)
      | .connError =>
          if B < retries then .raised
          else
            match recurse () with
            | .raised => .raised
            | .ok nf => msearchLoop B retries hits script recurse cs (ci + 1) nf
      | .keyError => .raised

/-- `ESClient.msearch`: chunk the queries, run the loop; the recursive retry
call passes the queries and `retries + 1` but **not** `chunk_size`, which
therefore reverts to its default of 100. -/
def msearchGo (hits : ESQuery → List Nat) (script : Nat → Nat → MsOutcome)
    (B : Nat) (queries : List ESQuery) (chunkSize retries : Nat) :
    MsearchResult :=
  msearchLoop B retries hits script
    (fun _ =>
      if h : B < retries then .raised
      else msearchGo hits script B queries 100 (retries + 1))
    (chunkQueries chunkSize queries) 0 []
termination_by B + 1 - retries
decreasing_by omega

/- ## Liveness probe (DBClient.is_connection_open, identical structure in
mysqlclient_db.py, pymysql_db.py and psycopg2_db.py) -/

/-- What happens when the probe opens a cursor on the handle:
it opens (`cursorOk`), or raises a ProgrammingError (`progError`), an
OperationalError (`opError`), or an exception of any other class
(`otherError`). -/
inductive ProbeOutcome where
  | cursorOk
  | progError
  | opError
  | otherError
deriving DecidableEq

/-- What `conn.close()` does when the probe calls it. -/
inductive CloseOutcome where
  | closed
  | opError
  | otherError
deriving DecidableEq

inductive ProbeRes where
  | retTrue
  | retFalse
  | raisedProbe
  | raisedClose
deriving DecidableEq

/-- `DBClient.is_connection_open`: `is_open = False`; a falsy handle is never
probed; opening a cursor sets `is_open = True`; ProgrammingError and
OperationalError are caught and `conn.close()` is attempted with its own
OperationalError suppressed; any other exception class propagates. -/
def isConnectionOpen (conn : Option ProbeOutcome) (close : CloseOutcome) :
    ProbeRes :=
  match conn with
  | none => .retFalse
  | some .cursorOk => .retTrue
  | some .progError =>
      match close with
      | .closed => .retFalse
      | .opError => .retFalse
      | .otherError => .raisedClose
  | some .opError =>
      match close with
      | .closed => .retFalse
      | .opError => .retFalse
      | .otherError => .raisedClose
  | some .otherError => .raisedProbe

/- ## Helper lemmas -/

/-- On an always-retryable script the write facade executes the query once per
retry level and raises the terminal error: starting at level `retries` it
makes exactly `B + 1 - retries` attempts. -/
theorem executeWriteQueryCountM_retryable (B : Nat) (script : Nat → WriteOutcome)
    (h : ∀ i, script i = .lockDbError ∨ script i = .operationalError) :
    ∀ retries, executeWriteQueryCountM B script retries =
      (.raisedExceeded, B + 1 - retries) := by
  intro retries
  induction retries using executeWriteQueryCountM.induct B script with
  | case1 r hr => rw [executeWriteQueryCountM]; simp [hr]; omega
  | case2 r hr n hs => rcases h r with h1 | h1 <;> simp [h1] at hs
  | case3 r hr n hs => rcases h r with h1 | h1 <;> simp [h1] at hs
  | case4 r hr hs ih =>
      rw [executeWriteQueryCountM]
      simp only [hr, if_neg (by omega : ¬ B < r), hs, ih]
      simp only [if_neg not_false, Prod.mk.injEq, true_and]
      omega
  | case5 r hr hs => rcases h r with h1 | h1 <;> simp [h1] at hs
  | case6 r hr hs ih =>
      rw [executeWriteQueryCountM]
      simp only [hr, if_neg (by omega : ¬ B < r), hs, ih]
      simp only [if_neg not_false, Prod.mk.injEq, true_and]
      omega
  | case7 r hr hs => rcases h r with h1 | h1 <;> simp [h1] at hs

/-- When the backend read always fails and every reconnect succeeds,
`S3Client.read` performs one backend attempt per unit of fuel and never
reaches any raising path: the recursion is unbounded. -/
theorem s3Read_unbounded (connRetries : Nat) :
    ∀ fuel i ca, s3Read (fun _ => false) (fun _ => true) connRetries fuel i ca
      = (.outOfFuel, fuel) := by
  intro fuel
  induction fuel with
  | zero => intro i ca; rfl
  | succ n ih =>
      intro i ca
      simp [s3Read, s3ConnectStep, ih]

/-- When the backend receive always fails and every reconnect succeeds,
`SQSClient.get_messages` performs one receive per unit of fuel and never
raises: the successful `connect()` resets `connection_attempt` to 0, so the
`connection_attempt >= CONN_RETRIES` guard never fires (for any positive
`CONN_RETRIES`). -/
theorem sqsGetMessages_unbounded (R : Nat) :
    ∀ fuel i ca cc p,
      (sqsGetMessages (fun _ => false) (fun _ => true) (R + 1) fuel i ca cc p).1
        = .outOfFuel ∧
      (sqsGetMessages (fun _ => false) (fun _ => true) (R + 1) fuel i ca cc p).2.1
        = fuel := by
  intro fuel
  induction fuel with
  | zero => intro i ca cc p; exact ⟨rfl, rfl⟩
  | succ n ih =>
      intro i ca cc p
      have h := ih (i + 1) 0 (cc + 1) sqsRecvDefaults
      rw [sqsGetMessages]
      simp [sqsConnect, h.1, h.2]

/-- Every receive call in a `get_messages` cascade that started with the
default parameters uses the default parameters. -/
theorem sqsGetMessages_trace_defaults (recvOk connectOk : Nat → Bool)
    (R : Nat) :
    ∀ fuel i ca cc,
      ((sqsGetMessages recvOk connectOk R fuel i ca cc sqsRecvDefaults).2.2).all
        (fun q => q == sqsRecvDefaults) = true := by
  intro fuel
  induction fuel with
  | zero => intro i ca cc; rfl
  | succ n ih =>
      intro i ca cc
      rw [sqsGetMessages]
      by_cases hp : recvOk i = true
      · simp [hp]
      · by_cases hc : connectOk cc = true
        · by_cases hR : R ≤ 0
          · simp [hp, hc, hR, sqsConnect]
          · simp [hp, hc, hR, sqsConnect, ih]
        · by_cases hR : R ≤ ca + 1
          · simp [hp, hc, hR, sqsConnect]
          · simp [hp, hc, hR, sqsConnect, ih]

/- ## Claims -/

/-- C1 (amended): the SQL facade attempts an always-retryably-failing query
exactly `B + 1` times (`B = WRITE_RETRY_ATTEMPTS`) and then raises the
terminal retries-exceeded error; the object-store read and the queue receive
have no operation-level attempt bound — while reconnects succeed they retry
indefinitely, the attempt count growing with the allotted fuel and no
terminal error ever raised. -/
theorem claim1_amended (B : Nat) (script : Nat → WriteOutcome)
    (h : ∀ i, script i = .lockDbError ∨ script i = .operationalError) :
    executeWriteQueryCountM B script 0 = (.raisedExceeded, B + 1)
    ∧ (∀ R fuel i ca,
        s3Read (fun _ => false) (fun _ => true) R fuel i ca
          = (.outOfFuel, fuel))
    ∧ (∀ R fuel i ca cc p,
        (sqsGetMessages (fun _ => false) (fun _ => true) (R + 1)
            fuel i ca cc p).1 = .outOfFuel
        ∧ (sqsGetMessages (fun _ => false) (fun _ => true) (R + 1)
            fuel i ca cc p).2.1 = fuel) := by
  refine ⟨?_, ?_, ?_⟩
  · simpa using executeWriteQueryCountM_retryable B script h 0
  · intro R fuel i ca
    exact s3Read_unbounded R fuel i ca
  · intro R fuel i ca cc p
    exact sqsGetMessages_unbounded R fuel i ca cc p

/-- Witness for C1 (amended) at `B = 2` with an always-lock-error script. -/
theorem claim1_witness :
    (∀ i, (fun _ : Nat => WriteOutcome.lockDbError) i = .lockDbError ∨
        (fun _ : Nat => WriteOutcome.lockDbError) i = .operationalError)
    ∧ executeWriteQueryCountM 2 (fun _ => WriteOutcome.lockDbError) 0
        = (.raisedExceeded, 3) :=
  ⟨fun _ => Or.inl rfl,
   (claim1_amended 2 (fun _ => WriteOutcome.lockDbError)
      (fun _ => Or.inl rfl)).1⟩

/-- C1 fails as stated: with the default `CONN_RETRIES = 10` of the S3 client
(`B = 10`), an object-store read whose backend call always fails retryably
and whose reconnects succeed has made 12 > 10 + 1 attempts and still not
raised a terminal error. -/
theorem claim1_counterexample :
    s3Read (fun _ => false) (fun _ => true) 10 12 0 0 = (.outOfFuel, 12)
    ∧ 10 + 1 < 12 := by
  exact ⟨by decide, by decide⟩

/-- C2 fails as stated: a write query hitting an unhandled database error
(a ProgrammingError/InterfaceError not matching the lock substrings) makes
`execute_write_query` return `False` without raising, and an exception before
`output` is assigned makes `S3Client.write` return `None` without raising. -/
theorem claim2_counterexample :
    executeWriteQueryM 100 (fun _ => WriteOutcome.otherDbError) 0
      = .ok (.boolRet false)
    ∧ s3Write .existsRaised "listing.csv" = none := by
  constructor
  · rw [executeWriteQueryM]
    simp
  · rfl

/-- C2 (amended): as long as every backend failure carries a retryable
classification (lock contention or stale connection), the caller of the SQL
facades sees either a successful result or a raised error — never a silent
`False` write result or `None` read result; but an unhandled error makes
`execute_write_query` return `False` and `execute_read_query` return `None`,
and any `S3Client.write` failure yields `None` (or the pre-computed `output`
dict when the upload raised after metadata was computed) instead of
raising. -/
theorem claim2_amended (B : Nat) (script : Nat → WriteOutcome)
    (rscript : Nat → ReadOutcome)
    (h : ∀ i, script i ≠ .otherDbError ∧ script i ≠ .otherError)
    (hr : ∀ i, rscript i ≠ .otherError) :
    (∀ retries, executeWriteQueryM B script retries ≠ .ok (.boolRet false))
    ∧ (∀ retries, executeReadQueryM B rscript retries ≠ .ok .noneRet)
    ∧ (∀ key, s3Write .existsRaised key = none)
    ∧ (∀ key isNew, s3Write (.setContentsRaised isNew) key
        = some ⟨key, isNew⟩) := by
  refine ⟨?_, ?_, fun _ => rfl, fun _ _ => rfl⟩
  · intro retries
    induction retries using executeWriteQueryM.induct B script with
    | case1 r hrr => rw [executeWriteQueryM]; simp [hrr]
    | case2 r hrr n hs =>
        rw [executeWriteQueryM]
        simp only [hrr, hs, if_neg not_false]
        split <;> simp
    | case3 r hrr n hs =>
        rw [executeWriteQueryM]
        simp only [hrr, hs, if_neg not_false]
        split <;> simp
    | case4 r hrr hs ih => rw [executeWriteQueryM]; simp [hrr, hs, ih]
    | case5 r hrr hs => exact absurd hs (h r).1
    | case6 r hrr hs ih => rw [executeWriteQueryM]; simp [hrr, hs, ih]
    | case7 r hrr hs => exact absurd hs (h r).2
  · intro retries
    induction retries using executeReadQueryM.induct B rscript with
    | case1 r hrr => rw [executeReadQueryM]; simp [hrr]
    | case2 r hrr l hs => rw [executeReadQueryM]; simp [hrr, hs]
    | case3 r hrr hs ih => rw [executeReadQueryM]; simp [hrr, hs, ih]
    | case4 r hrr hs => exact absurd hs (hr r)

/-- Witness for C2 (amended) at `B = 2` with an always-lock-error write
script and an always-stale-connection read script. -/
theorem claim2_witness :
    (∀ i, (fun _ : Nat => WriteOutcome.lockDbError) i ≠ .otherDbError ∧
        (fun _ : Nat => WriteOutcome.lockDbError) i ≠ .otherError)
    ∧ (∀ i, (fun _ : Nat => ReadOutcome.operationalError) i ≠ .otherError)
    ∧ executeWriteQueryM 2 (fun _ => WriteOutcome.lockDbError) 0
        ≠ .ok (.boolRet false) :=
  ⟨fun i => ⟨by simp, by simp⟩, fun i => by simp,
   (claim2_amended 2 (fun _ => WriteOutcome.lockDbError)
      (fun _ => ReadOutcome.operationalError)
      (fun i => ⟨by simp, by simp⟩) (fun i => by simp)).1 0⟩

/-- C3 fails as stated: a successful `S3Client.connect` does not reset the
per-instance attempt counter — starting from counter 0 a successful connect
leaves it at 1, not 0 (the S3 connector increments first and never resets). -/
theorem claim3_counterexample :
    s3ConnectStep true 10 0 = (1, false)
    ∧ (s3ConnectStep true 10 0).1 ≠ 0 := by
  exact ⟨rfl, by decide⟩

/-- C3 (amended): the SQS connector resets the attempt counter to zero on a
successful connect, increments it on failure and re-raises exactly when the
incremented counter reaches `CONN_RETRIES`; the S3 connector increments its
counter on every call — successful or not — never resets it, and re-raises
exactly when a failed call leaves the counter at `CONN_RETRIES` or above. -/
theorem claim3_amended (R ca : Nat) :
    sqsConnect true R ca = (0, false)
    ∧ sqsConnect false R ca = (ca + 1, decide (R ≤ ca + 1))
    ∧ s3ConnectStep true R ca = (ca + 1, false)
    ∧ s3ConnectStep false R ca = (ca + 1, decide (R ≤ ca + 1)) :=
  ⟨rfl, rfl, rfl, rfl⟩

/-- C4 fails as stated: a probe failure of an exception class other than
ProgrammingError/OperationalError propagates out of `is_connection_open`, as
does a close failure other than OperationalError. -/
theorem claim4_counterexample :
    isConnectionOpen (some .otherError) .closed = .raisedProbe
    ∧ isConnectionOpen (some .progError) .otherError = .raisedClose :=
  ⟨rfl, rfl⟩

/-- C4 (amended): `is_connection_open` raises exactly when the cursor probe
fails with an exception class other than ProgrammingError/OperationalError,
or when it fails with one of those two classes and the subsequent
`conn.close()` raises something other than OperationalError; in every other
handle state it returns a boolean, with `False` for an unset handle and for a
caught probe failure (whose close-side OperationalError is suppressed). -/
theorem claim4_amended (conn : Option ProbeOutcome) (close : CloseOutcome) :
    (isConnectionOpen conn close = .raisedProbe ∨
      isConnectionOpen conn close = .raisedClose)
    ↔ (conn = some .otherError ∨
        ((conn = some .progError ∨ conn = some .opError) ∧
          close = .otherError)) := by
  cases conn with
  | none => simp [isConnectionOpen]
  | some o => cases o <;> cases close <;> simp [isConnectionOpen]

/-- C6: a message whose body fails to parse, with the queue delete succeeding
on its first backend call, causes exactly one backend delete call and
re-raises the parsing error to the caller. -/
theorem claim6_thm (dscript : Nat → SQSDelOutcome) (connectOk : Nat → Bool)
    (R fuel ca : Nat) (h : dscript 0 = .deleted) :
    parseMessage false dscript connectOk R (fuel + 1) ca
      = (.raisedParseError, 1) := by
  unfold parseMessage
  rw [sqsDeleteMessage]
  simp [h]

/-- Witness for C6 at an immediately-succeeding delete script. -/
theorem claim6_witness :
    (fun _ : Nat => SQSDelOutcome.deleted) 0 = SQSDelOutcome.deleted
    ∧ parseMessage false (fun _ => SQSDelOutcome.deleted) (fun _ => true) 20 1 0
      = (.raisedParseError, 1) :=
  ⟨rfl, claim6_thm (fun _ => SQSDelOutcome.deleted) (fun _ => true) 20 0 0 rfl⟩

/-- C7: deleting an already-absent resource never raises — a queue delete
hitting AttributeError (message already deleted) returns `True` after a
single backend call, and a search index delete hitting NotFoundError returns
`False`. -/
theorem claim7_thm (script : Nat → SQSDelOutcome) (connectOk : Nat → Bool)
    (escript : Nat → ESDelOutcome) (R fuel i ca cc n : Nat)
    (h1 : script i = .attrError) (h2 : escript 0 = .notFound) :
    sqsDeleteMessage script connectOk R (fuel + 1) i ca cc = (.okTrue, 1)
    ∧ esDeleteIndex escript (n + 1) = .falseRet := by
  constructor
  · rw [sqsDeleteMessage]
    simp [h1]
  · unfold esDeleteIndex
    rw [esDeleteIndexGo]
    simp [h2]

/-- Witness for C7: both deletes on already-absent resources. -/
theorem claim7_witness :
    (fun _ : Nat => SQSDelOutcome.attrError) 0 = SQSDelOutcome.attrError
    ∧ (fun _ : Nat => ESDelOutcome.notFound) 0 = ESDelOutcome.notFound
    ∧ (sqsDeleteMessage (fun _ => SQSDelOutcome.attrError) (fun _ => true)
        20 1 0 0 0 = (.okTrue, 1)
      ∧ esDeleteIndex (fun _ => ESDelOutcome.notFound) 60 = .falseRet) :=
  ⟨rfl, rfl,
   claim7_thm (fun _ => SQSDelOutcome.attrError) (fun _ => true)
     (fun _ => ESDelOutcome.notFound) 20 0 0 0 0 59 rfl rfl⟩

/-- C10: when `get_messages` retries after a transient receive error, the
retried receive uses the default parameters — one message, the class-default
visibility timeout (14) and long-poll wait (20) — regardless of the caller's
arguments; in general every receive after the first in one cascade uses the
defaults. -/
theorem claim10_thm (recvOk connectOk : Nat → Bool) (R : Nat) :
    (∀ (p : RecvParams) ca cc R2 fuel,
      sqsGetMessages (fun i => i != 0) (fun _ => true) (R2 + 1) (fuel + 2)
          0 ca cc p
        = (.okMessages, 2, [p, sqsRecvDefaults]))
    ∧ (∀ fuel i ca cc p,
        ((sqsGetMessages recvOk connectOk R fuel i ca cc p).2.2).tail.all
          (fun q => q == sqsRecvDefaults) = true) := by
  constructor
  · intro p ca cc R2 fuel
    rfl
  · intro fuel i ca cc p
    cases fuel with
    | zero => rfl
    | succ n =>
        rw [sqsGetMessages]
        by_cases hp : recvOk i = true
        · simp [hp]
        · by_cases hc : connectOk cc = true
          · by_cases hR : R ≤ 0
            · simp [hp, hc, hR, sqsConnect]
            · simp [hp, hc, hR, sqsConnect,
                sqsGetMessages_trace_defaults recvOk connectOk R n]
          · by_cases hR : R ≤ ca + 1
            · simp [hp, hc, hR, sqsConnect]
            · simp [hp, hc, hR, sqsConnect,
                sqsGetMessages_trace_defaults recvOk connectOk R n]

/-- C5 fails as stated: an `S3Client.download` of a missing key (`get_key`
returns None) re-raises the error instead of yielding an empty/false
result. -/
theorem claim5_counterexample :
    s3Download (fun _ => S3DownOutcome.keyMissing) (fun _ => true) 10 5 0 0
      = .raised := by
  decide

/-- C5 (amended): within the search facade a NotFound condition yields a
false/empty result without raising — `delete_index` returns `False`,
`get_alias` returns `None` — but the object-store `download` re-raises when
the requested key is missing from the bucket. -/
theorem claim5_amended (escript : Nat → ESDelOutcome)
    (ascript : Nat → ESAliasOutcome) (dscript : Nat → S3DownOutcome)
    (connectOk : Nat → Bool) (n B retries R fuel i ca : Nat)
    (h1 : escript 0 = .notFound) (h2 : ascript retries = .notFound)
    (h3 : dscript i = .keyMissing) :
    esDeleteIndex escript (n + 1) = .falseRet
    ∧ esGetAlias ascript B retries = .noneRet
    ∧ s3Download dscript connectOk R (fuel + 1) i ca = .raised := by
  refine ⟨?_, ?_, ?_⟩
  · unfold esDeleteIndex
    rw [esDeleteIndexGo]
    simp [h1]
  · rw [esGetAlias]
    simp [h2]
  · rw [s3Download]
    simp [h3]

/-- Witness for C5 (amended) with immediate NotFound outcomes. -/
theorem claim5_witness :
    ((fun _ : Nat => ESDelOutcome.notFound) 0 = ESDelOutcome.notFound)
    ∧ ((fun _ : Nat => ESAliasOutcome.notFound) 0 = ESAliasOutcome.notFound)
    ∧ ((fun _ : Nat => S3DownOutcome.keyMissing) 0 = S3DownOutcome.keyMissing)
    ∧ (esDeleteIndex (fun _ => ESDelOutcome.notFound) 60 = .falseRet
      ∧ esGetAlias (fun _ => ESAliasOutcome.notFound) 60 0 = .noneRet
      ∧ s3Download (fun _ => S3DownOutcome.keyMissing) (fun _ => true)
          10 1 0 0 = .raised) :=
  ⟨rfl, rfl, rfl,
   claim5_amended (fun _ => ESDelOutcome.notFound)
     (fun _ => ESAliasOutcome.notFound) (fun _ => S3DownOutcome.keyMissing)
     (fun _ => true) 59 60 0 10 0 0 0 rfl rfl rfl⟩

/-- C8 fails as stated: on an unhandled (non-retryable, non-operational)
error the mysqlclient read facade returns `None` while the pymysql read
facade returns `False` — the two flavours do not return equal results. -/
theorem claim8_counterexample :
    executeReadQueryM 100 (fun _ => ReadOutcome.otherError) 0 = .ok .noneRet
    ∧ executeReadQueryP 100 (fun _ => ReadOutcome.otherError) 0 = .ok .falseRet
    ∧ ReadResult.ok .noneRet ≠ ReadResult.ok .falseRet := by
  refine ⟨?_, ?_, by decide⟩
  · rw [executeReadQueryM]
    simp
  · rw [executeReadQueryP]
    simp

/-- C8 (amended): the two SQL flavours agree everywhere on
`execute_write_query` (up to the class of the terminal raise), and agree on
`execute_read_query` except on the unhandled-error outcome, where the
mysqlclient flavour returns `None` and the pymysql flavour returns
`False`. -/
theorem claim8_amended (B : Nat) (wscript : Nat → WriteOutcome)
    (rscript : Nat → ReadOutcome) (retries : Nat) :
    executeWriteQueryM B wscript retries = executeWriteQueryP B wscript retries
    ∧ (executeReadQueryM B rscript retries
          = executeReadQueryP B rscript retries
      ∨ (executeReadQueryM B rscript retries = .ok .noneRet
          ∧ executeReadQueryP B rscript retries = .ok .falseRet)) := by
  constructor
  · induction retries using executeWriteQueryM.induct B wscript with
    | case1 r hrr =>
        rw [executeWriteQueryM, executeWriteQueryP]
        simp [hrr]
    | case2 r hrr n hs =>
        rw [executeWriteQueryM, executeWriteQueryP]
        simp [hrr, hs]
    | case3 r hrr n hs =>
        rw [executeWriteQueryM, executeWriteQueryP]
        simp [hrr, hs]
    | case4 r hrr hs ih =>
        rw [executeWriteQueryM, executeWriteQueryP]
        simp [hrr, hs, ih]
    | case5 r hrr hs =>
        rw [executeWriteQueryM, executeWriteQueryP]
        simp [hrr, hs]
    | case6 r hrr hs ih =>
        rw [executeWriteQueryM, executeWriteQueryP]
        simp [hrr, hs, ih]
    | case7 r hrr hs =>
        rw [executeWriteQueryM, executeWriteQueryP]
        simp [hrr, hs]
  · induction retries using executeReadQueryM.induct B rscript with
    | case1 r hrr =>
        left
        rw [executeReadQueryM, executeReadQueryP]
        simp [hrr]
    | case2 r hrr l hs =>
        left
        rw [executeReadQueryM, executeReadQueryP]
        simp [hrr, hs]
    | case3 r hrr hs ih =>
        rcases ih with ih | ⟨ih1, ih2⟩
        · left
          rw [executeReadQueryM, executeReadQueryP]
          simp [hrr, hs, ih]
        · right
          constructor
          · rw [executeReadQueryM]
            simp [hrr, hs, ih1]
          · rw [executeReadQueryP]
            simp [hrr, hs, ih2]
    | case4 r hrr hs =>
        right
        constructor
        · rw [executeReadQueryM]
          simp [hrr, hs]
        · rw [executeReadQueryP]
          simp [hrr, hs]

/-- Joining the chunks produced by `chunk_queries` recovers the original
query list (for a positive chunk size). -/
theorem chunkQueries_join (size : Nat) (hs : size ≠ 0) :
    ∀ l : List ESQuery, (chunkQueries size l).flatten = l := by
  intro l
  induction l using chunkQueries.induct size with
  | case1 => rw [chunkQueries]; rfl
  | case2 q qs h0 => exact absurd h0 hs
  | case3 q qs h0 ih =>
      rw [chunkQueries]
      simp only [h0, if_false]
      simp [ih, List.take_append_drop]

/-- Every chunk produced by `chunk_queries` holds at most `chunk_size`
queries. -/
theorem chunkQueries_length_le (size : Nat) :
    ∀ (l : List ESQuery), ∀ c ∈ chunkQueries size l, c.length ≤ size := by
  intro l
  induction l using chunkQueries.induct size with
  | case1 => intro c hc; rw [chunkQueries] at hc; cases hc
  | case2 q qs h0 =>
      intro c hc
      rw [chunkQueries] at hc
      simp [h0] at hc
  | case3 q qs h0 ih =>
      intro c hc
      rw [chunkQueries] at hc
      simp only [h0, if_false, List.mem_cons] at hc
      rcases hc with rfl | hc
      · simp [List.length_take_le]
      · exact ih c hc

/-- When every physical msearch request succeeds, the chunk loop appends one
hit list per query of each remaining chunk to the accumulator. -/
theorem msearchLoop_allOk (B retries : Nat) (hits : ESQuery → List Nat)
    (recurse : Unit → MsearchResult) :
    ∀ (chunks : List (List ESQuery)) (ci : Nat) (found : List (List Nat)),
      msearchLoop B retries hits (fun _ _ => .okResp) recurse chunks ci found
        = .ok (found ++ (chunks.map (fun c => c.map hits)).flatten) := by
  intro chunks
  induction chunks with
  | nil => intro ci found; simp [msearchLoop]
  | cons c cs ih =>
      intro ci found
      rw [msearchLoop]
      simp [ih, List.append_assoc]

/-- C9 (amended): for a positive chunk size and a run in which no msearch
request fails, `msearch` partitions the batch into consecutive chunks of at
most `chunk_size` queries whose concatenation is the original batch, and
returns exactly one hit list per input query in the input order.  (When a
transient error strikes a chunk that is not the last, the retry replaces the
accumulator and the loop then re-appends the remaining chunks, duplicating
their results — see the accompanying counterexample.) -/
theorem claim9_amended (hits : ESQuery → List Nat) (B : Nat)
    (queries : List ESQuery) (size retries : Nat) (hsize : size ≠ 0) :
    msearchGo hits (fun _ _ => .okResp) B queries size retries
      = .ok (queries.map hits)
    ∧ (chunkQueries size queries).flatten = queries
    ∧ (∀ c ∈ chunkQueries size queries, c.length ≤ size) := by
  refine ⟨?_, chunkQueries_join size hsize queries,
    fun c hc => chunkQueries_length_le size queries c hc⟩
  rw [msearchGo, msearchLoop_allOk]
  rw [(List.map_flatten hits (chunkQueries size queries)).symm]
  rw [chunkQueries_join size hsize]
  simp

/-- C9 fails as stated: with bound `RETRY_ATTEMPTS = 1`, four queries and
`chunk_size = 2`, a transient error on the first chunk (retried successfully)
makes `msearch` return six hit lists for four queries — after the retry the
loop re-appends the results of the second chunk, duplicating them. -/
theorem claim9_counterexample :
    msearchGo (fun q => [q])
        (fun r ci => if r == 0 && ci == 0 then MsOutcome.connError
          else MsOutcome.okResp)
        1 [0, 1, 2, 3] 2 0
      = .ok [[0], [1], [2], [3], [2], [3]]
    ∧ ([[0], [1], [2], [3], [2], [3]] : List (List Nat)).length
        ≠ ([0, 1, 2, 3] : List ESQuery).length := by
  constructor
  · have hchunks2 : chunkQueries 2 [0, 1, 2, 3] = [[0, 1], [2, 3]] := by
      simp [chunkQueries]
    have hchunks100 : chunkQueries 100 [0, 1, 2, 3] = [[0, 1, 2, 3]] := by
      simp [chunkQueries]
    have hinner : msearchGo (fun q => [q])
        (fun r ci => if r == 0 && ci == 0 then MsOutcome.connError
          else MsOutcome.okResp)
        1 [0, 1, 2, 3] 100 1 = .ok [[0], [1], [2], [3]] := by
      rw [msearchGo, hchunks100]
      rw [msearchLoop]
      simp [msearchLoop]
    rw [msearchGo, hchunks2]
    rw [msearchLoop]
    simp only [Nat.zero_lt_one, beq_self_eq_true, Bool.and_self, if_true]
    rw [hinner]
    simp [msearchLoop]
  · decide

/-- Witness for C9 (amended) at three queries and chunk size 2. -/
theorem claim9_witness :
    (2 : Nat) ≠ 0
    ∧ (msearchGo (fun q => [q]) (fun _ _ => MsOutcome.okResp) 60 [5, 6, 7] 2 0
        = .ok ([5, 6, 7].map (fun q => [q]))
      ∧ (chunkQueries 2 [5, 6, 7]).flatten = [5, 6, 7]
      ∧ (∀ c ∈ chunkQueries 2 [5, 6, 7], c.length ≤ 2)) :=
  ⟨by decide, claim9_amended (fun q => [q]) 60 [5, 6, 7] 2 0 (by decide)⟩
